import Mathlib

/-!
Shallow embedding of the x-ui provisioning/lookup client
(`src/services/xui_service.py` of the vpn-bot-web-app repository).

Network interaction is modelled explicitly: every fetch of the panel's
inbound list is a call to an oracle `fetch : Nat → Option (List Inbound)`
(indexed by the position of the request in program order; `none` models a
non-200 response), the one mutating add-client call is an input `AddResp`,
and the login requests consult an oracle `respond : Nat → NetResult`.
Authentication state is the boolean `auth_ok` (`_ensure_authenticated`).
Randomly generated values (`uuid.uuid4()`, `secrets.token_urlsafe(12)`) are
inputs `user_uuid` / `sub_id_gen`.

String primitives are implemented structurally over `String.data` so that
all definitions evaluate inside the kernel; each mirrors the Python
operation used by the source (`in`, `split(...)[0]`, `replace`, `lower`,
`startswith`, slicing).
-/

/-- Python `c in s` (membership of a single character). -/
def strContains (s : String) (c : Char) : Bool :=
  s.data.contains c

/-- Python `s.split(sep)[0]` for a one-character separator: the prefix of
`s` before the first occurrence of `c` (all of `s` when `c` is absent). -/
def strTakeUntil (s : String) (c : Char) : String :=
  String.mk (s.data.takeWhile (fun a => a != c))

/-- Python slicing `s[n:]` (by code points, as Python indexes `str`). -/
def strDrop (s : String) (n : Nat) : String :=
  String.mk (s.data.drop n)

/-- Python `len(s)` (code points). -/
def strLength (s : String) : Nat :=
  s.data.length

/-- Python `s.startswith(p)`. -/
def strStartsWith (s p : String) : Bool :=
  s.data.take p.data.length == p.data

/-- Replaces every (leftmost, non-overlapping) occurrence of `pat` by
`repl`, scanning left to right; the `skip` argument consumes the remainder
of a matched pattern so the recursion stays structural. With `skip = 0`
this is Python `s.replace(pat, repl)` for a non-empty `pat`. -/
def replaceAllAux (pat repl : List Char) : Nat → List Char → List Char
  | _, [] => []
  | 0, a :: rest =>
    if pat.isPrefixOf (a :: rest) then
      repl ++ replaceAllAux pat repl (pat.length - 1) rest
    else
      a :: replaceAllAux pat repl 0 rest
  | skip + 1, _ :: rest => replaceAllAux pat repl skip rest

/-- Python `s.replace(pat, repl)` for non-empty `pat`. -/
def replaceAllStr (s pat repl : String) : String :=
  String.mk (replaceAllAux pat.data repl.data 0 s.data)

/-- Python `pat in s` (substring containment). -/
def containsSubstr (s pat : String) : Bool :=
  substrAux pat.data s.data
where
  substrAux (pat : List Char) : List Char → Bool
    | [] => pat.isPrefixOf []
    | a :: rest => pat.isPrefixOf (a :: rest) || substrAux pat rest

/-- Python `s.lower()`, restricted to the ASCII range (the
existence-indicator scan in the source only compares ASCII keywords). -/
def lowerStr (s : String) : String :=
  String.mk (s.data.map Char.toLower)

/-- A client record embedded in an inbound's settings, with exactly the
fields the service reads back: `id` via `client.get("id")` (may be
absent), and `email`, `tgId`, `subId` via `client.get(key, "")`, so an
absent key is modelled as `""`. The submitted-only fields (`flow`,
`limitIp`, `totalGB`, `expiryTime`, `enable`, `comment`, `reset`,
`alterId`) are never read back by any modelled operation. -/
structure Client where
  id : Option String
  email : String
  tgId : String
  subId : String
deriving Repr, DecidableEq

/-- A panel inbound as consumed by the service: `id`, `enable`,
`protocol`, and the client list parsed out of its `settings`. -/
structure Inbound where
  id : Int
  enable : Bool
  protocol : String
  clients : List Client
deriving Repr, DecidableEq

/-- The configuration surface of `config.py` consumed by the service.
`sub_host` and `sub_port` are `XUI_SUBSCRIPTION_HOST` /
`XUI_SUBSCRIPTION_PORT`, with `""` meaning unset (Python falsiness);
`default_inbound_id` is `DEFAULT_INBOUND_ID` (`None` when unset). -/
structure Config where
  base_url : String
  sub_host : String
  sub_port : String
  default_protocol : String
  default_total_gb : Int
  default_inbound_id : Option Int
deriving Repr, DecidableEq

/-- `XUIService._get_subscription_url` (the `inbound_id` parameter of the
source is ignored by its body and omitted here). -/
def get_subscription_url (cfg : Config) (sub_id : String) : String :=
  if cfg.sub_host ≠ "" then
    "https://" ++ cfg.sub_host ++ "/sub/" ++ sub_id
  else if cfg.sub_port ≠ "" then
    let base_url := replaceAllStr (replaceAllStr cfg.base_url "https://" "") "http://" ""
    let host :=
      if strContains base_url ':' then strTakeUntil base_url ':'
      else if strContains base_url '/' then strTakeUntil base_url '/'
      else base_url
    "https://" ++ host ++ ":" ++ cfg.sub_port ++ "/sub/" ++ sub_id
  else
    let base_url := replaceAllStr (replaceAllStr cfg.base_url "https://" "") "http://" ""
    let host_port :=
      if strContains base_url '/' then strTakeUntil base_url '/' else base_url
    if strContains host_port ':' then
      "https://" ++ strTakeUntil host_port ':' ++ ":2096/sub/" ++ sub_id
    else
      "https://" ++ host_port ++ ":2096/sub/" ++ sub_id

/-- `XUIService.get_inbound_clients`: one fetch of the inbound list
(at request index `k`), then a linear scan for the matching id. -/
def get_inbound_clients (fetch : Nat → Option (List Inbound)) (k : Nat)
    (inbound_id : Int) : Option Inbound :=
  match fetch k with
  | none => none
  | some inbounds => inbounds.find? (fun ib => ib.id == inbound_id)

/-- The dictionary returned by `find_user_by_username` on a hit (its
constant `"found": True` entry is omitted). -/
structure FoundUser where
  username : String
  sub_id : String
  uuid : Option String
  subscription_url : String
  inbound_id : Int
deriving Repr, DecidableEq

/-- The client-list scan of `find_user_by_username`: the first client
whose `email` equals the query is returned, but only when its `subId`
is non-empty (`if sub_id:`); otherwise the scan continues. -/
def scanClients (cfg : Config) (check_inbound_id : Int) (username : String) :
    List Client → Option FoundUser
  | [] => none
  | client :: rest =>
    if client.email = username then
      if client.subId ≠ "" then
        some { username := username, sub_id := client.subId, uuid := client.id,
               subscription_url := get_subscription_url cfg client.subId,
               inbound_id := check_inbound_id }
      else scanClients cfg check_inbound_id username rest
    else scanClients cfg check_inbound_id username rest

/-- `XUIService.find_user_by_username`. The inbound id falls back to
`DEFAULT_INBOUND_ID`; Python's `if not check_inbound_id` rejects both
`None` and `0`. A failed fetch yields `none` ("skipping username
check"). -/
def find_user_by_username (cfg : Config) (fetch : Nat → Option (List Inbound))
    (k : Nat) (username : String) (inbound_id : Option Int) : Option FoundUser :=
  let check_inbound_id :=
    match inbound_id with
    | some i => some i
    | none => cfg.default_inbound_id
  match check_inbound_id with
  | none => none
  | some cid =>
    if cid = 0 then none
    else
      match get_inbound_clients fetch k cid with
      | none => none
      | some inbound => scanClients cfg cid username inbound.clients

/-- `XUIService._get_existing_inbound`: first enabled inbound whose
protocol equals the hint when the hint is non-empty (Python truthiness),
otherwise the first enabled inbound of any protocol. -/
def get_existing_inbound (auth_ok : Bool) (fetch : Nat → Option (List Inbound))
    (k : Nat) (protocol : String) : Option Inbound :=
  if !auth_ok then none
  else
    match fetch k with
    | none => none
    | some inbounds =>
      inbounds.find? (fun ib => ib.enable && (protocol == "" || ib.protocol == protocol))

/-- Messages of the dictionaries `create_user` returns. -/
def usernameRequiredMsg : String :=
  "Имя пользователя не указано. Пожалуйста, установите username в настройках Telegram."

/-- Message of the `too_many_devices` dictionary. -/
def tooManyMsg : String :=
  "Слишком много устройств с таким именем. Попробуйте другое имя."

/-- Message of the `username_exists` dictionaries (the source formats the
bare username, or — on the pre-check short circuit — the candidate email,
which is the bare username on that path). -/
def existsMsg (name : String) : String :=
  "Пользователь с именем \x27" ++ name ++ "\x27 уже существует."

/-- The auto-increment probe loop of `create_user` (`counter = 2`,
`while True`, `if counter > 100: return too_many_devices`). Probe number
`counter` fetches at request index `k`; a free key returns the chosen
email with the next request index. `fuel` only makes the recursion
structural: the loop is entered with `fuel + counter = 101`, so the
`fuel = 0` branch is unreachable — the `counter + 1 > 100` check (the
source's own bound) always fires first. -/
def probeLoop (cfg : Config) (fetch : Nat → Option (List Inbound)) (base : String)
    (fuel k counter : Nat) : Option (String × Nat) :=
  let new_email := base ++ "_" ++ toString counter
  match find_user_by_username cfg fetch k new_email none with
  | none => some (new_email, k + 1)
  | some _ =>
    if counter + 1 > 100 then none
    else
      match fuel with
      | 0 => none
      | fuel1 + 1 => probeLoop cfg fetch base fuel1 (k + 1) (counter + 1)

/-- Outcome of the email-determination phase of `create_user`
(lines 186–220 of the source): the chosen candidate email together with
the next request index, the no-device short circuit on an existing
primary account, or the `too_many_devices` rejection. -/
inductive EmailChoice where
  | ok (email : String) (k : Nat)
  | already (message : String) (subscription_url : String)
  | tooMany (message : String)
deriving Repr, DecidableEq

/-- The no-device branch: `email = username`, short-circuiting when an
account with that exact email is found. -/
def primaryEmail (cfg : Config) (fetch : Nat → Option (List Inbound))
    (u : String) : EmailChoice :=
  match find_user_by_username cfg fetch 0 u none with
  | some existing_user => .already (existsMsg u) existing_user.subscription_url
  | none => .ok u 1

/-- The device branch: candidate `username_device`, falling back to the
probe loop when that key is taken. -/
def deviceEmail (cfg : Config) (fetch : Nat → Option (List Inbound))
    (u d : String) : EmailChoice :=
  let email := u ++ "_" ++ d
  match find_user_by_username cfg fetch 0 email none with
  | none => .ok email 1
  | some _ =>
    match probeLoop cfg fetch email 99 1 2 with
    | some (e, k) => .ok e k
    | none => .tooMany tooManyMsg

/-- Email determination of `create_user`; an empty device name is falsy
in Python (`if device_name:`) and behaves like no device. -/
def determineEmail (cfg : Config) (fetch : Nat → Option (List Inbound))
    (u : String) (device_name : Option String) : EmailChoice :=
  match device_name with
  | some d => if d ≠ "" then deviceEmail cfg fetch u d else primaryEmail cfg fetch u
  | none => primaryEmail cfg fetch u

/-- The parsed JSON body of the add-client response: the `success` flag
and the `msg` field (with the source's `.get` default already applied). -/
structure AddBody where
  success : Bool
  msg : String
deriving Repr, DecidableEq

/-- The add-client HTTP response: status code and body (`none` models a
body that is not parseable as JSON). -/
structure AddResp where
  status : Nat
  body : Option AddBody
deriving Repr, DecidableEq

/-- The existence-indicator scan of `create_user`:
`"exist" in error_lower or "duplicate" in error_lower or "already" in error_lower`. -/
def errorIndicatesExists (msg : String) : Bool :=
  let error_lower := lowerStr msg
  containsSubstr error_lower "exist" || containsSubstr error_lower "duplicate" ||
    containsSubstr error_lower "already"

/-- Target-inbound determination of `create_user`: a configured
`DEFAULT_INBOUND_ID` (checked with `is not None`, so `0` qualifies) wins;
otherwise one fetch through `_get_existing_inbound` (authentication was
already ensured at this point). `none` is the path that logs "No enabled
... inbound found" and makes `create_user` return `None`. -/
def inboundChoice (cfg : Config) (fetch : Nat → Option (List Inbound))
    (k : Nat) : Option (Int × Nat) :=
  match cfg.default_inbound_id with
  | some i => some (i, k)
  | none =>
    match get_existing_inbound true fetch k cfg.default_protocol with
    | some ib => some (ib.id, k + 1)
    | none => none

/-- The client record `create_user` submits to the panel, projected to
the fields later read back by the lookup operations. -/
def submittedClient (user_uuid email : String) (telegram_user_id : Int)
    (sub_id : String) : Client :=
  { id := some user_uuid, email := email,
    tgId := toString telegram_user_id, subId := sub_id }

/-- The result dictionaries of `create_user`; `Option.none` at the
`create_user` level models Python `None` (authentication failure, no
inbound available, unclassified creation failure, parse failure). -/
inductive CreateResult where
  | createdOk (uuid sub_id : String) (inbound_id : Int)
      (subscription_url : String) (total_gb : Int)
  | usernameRequired (message : String)
  | tooManyDevices (message : String)
  | usernameExists (message : String) (subscription_url : String)
deriving Repr, DecidableEq

/-- `XUIService.create_user`. Note that both conflict-recovery re-queries
(the 200-with-failure branch and the non-200 branch) call
`find_user_by_username(username, inbound_id)` with the bare username,
not with the candidate email that was submitted. -/
def create_user (cfg : Config) (auth_ok : Bool)
    (fetch : Nat → Option (List Inbound)) (addResp : AddResp)
    (user_uuid sub_id_gen : String) (telegram_user_id : Int)
    (username device_name : Option String) : Option CreateResult :=
  match username with
  | none => some (.usernameRequired usernameRequiredMsg)
  | some u =>
    if u = "" then some (.usernameRequired usernameRequiredMsg)
    else if !auth_ok then none
    else
      match determineEmail cfg fetch u device_name with
      | .already msg url => some (.usernameExists msg url)
      | .tooMany msg => some (.tooManyDevices msg)
      | .ok _email k =>
        match inboundChoice cfg fetch k with
        | none => none
        | some (inbound_id, k2) =>
          if addResp.status = 200 then
            match addResp.body with
            | some b =>
              if b.success then
                some (.createdOk user_uuid sub_id_gen inbound_id
                      (get_subscription_url cfg sub_id_gen) cfg.default_total_gb)
              else if errorIndicatesExists b.msg then
                match find_user_by_username cfg fetch k2 u (some inbound_id) with
                | some found => some (.usernameExists (existsMsg u) found.subscription_url)
                | none => none
              else none
            | none => none
          else
            match addResp.body with
            | some b =>
              if errorIndicatesExists b.msg then
                match find_user_by_username cfg fetch k2 u (some inbound_id) with
                | some found => some (.usernameExists (existsMsg u) found.subscription_url)
                | none => none
              else none
            | none => none

/-- One entry of the list `get_all_user_subscriptions` returns. -/
structure SubEntry where
  email : String
  subscription_url : String
  device_name : String
  sub_id : String
deriving Repr, DecidableEq

/-- Device-label derivation of `get_all_user_subscriptions`, including
the final `device_name or client_email` fallback of the source. -/
def deviceLabel (base_username : Option String) (client_email : String) : String :=
  let device_name :=
    match base_username with
    | some b =>
      if client_email = b then "Основное устройство"
      else if strStartsWith client_email (b ++ "_") then
        strDrop client_email (strLength b + 1)
      else client_email
    | none => client_email
  if device_name = "" then client_email else device_name

/-- The client loop of `get_all_user_subscriptions`: keep clients whose
`tgId` equals the queried id (as text), drop clients with an empty or
missing `subId`, preserve list order. -/
def collectSubs (cfg : Config) (telegram_user_id : Int)
    (base_username : Option String) : List Client → List SubEntry
  | [] => []
  | client :: rest =>
    if client.tgId ≠ toString telegram_user_id then
      collectSubs cfg telegram_user_id base_username rest
    else if client.subId = "" then
      collectSubs cfg telegram_user_id base_username rest
    else
      { email := client.email,
        subscription_url := get_subscription_url cfg client.subId,
        device_name := deviceLabel base_username client.email,
        sub_id := client.subId } :: collectSubs cfg telegram_user_id base_username rest

/-- `XUIService.get_all_user_subscriptions`. Python's
`if not DEFAULT_INBOUND_ID` rejects both `None` and `0`;
`base_username = username if username else None`. -/
def get_all_user_subscriptions (cfg : Config) (auth_ok : Bool)
    (fetch : Nat → Option (List Inbound)) (k : Nat)
    (telegram_user_id : Int) (username : Option String) : List SubEntry :=
  if !auth_ok then []
  else
    match cfg.default_inbound_id with
    | none => []
    | some ibid =>
      if ibid = 0 then []
      else
        match get_inbound_clients fetch k ibid with
        | none => []
        | some inbound =>
          let base_username :=
            match username with
            | some u => if u = "" then none else some u
            | none => none
          collectSubs cfg telegram_user_id base_username inbound.clients

/-- `XUIService.get_user_subscription`: the head of
`get_all_user_subscriptions`, or `None` on an empty list. -/
def get_user_subscription (cfg : Config) (auth_ok : Bool)
    (fetch : Nat → Option (List Inbound)) (k : Nat)
    (telegram_user_id : Int) (username : Option String) : Option String :=
  match get_all_user_subscriptions cfg auth_ok fetch k telegram_user_id username with
  | [] => none
  | s :: _ => some s.subscription_url

/-- Outcome of one HTTP request during `_login`: an HTTP response with a
status code and (for the JSON-probing request) `some flag` when the body
parses as JSON with that `success` flag and `none` when it does not, or
one of the caught transport exceptions. -/
inductive NetResult where
  | http (status : Nat) (jsonSuccess : Option Bool)
  | timeout
  | connError
  | otherError
deriving Repr, DecidableEq

/-- The candidate login paths of `_login`, in source order. -/
def login_endpoints : List String :=
  ["/login", "/xui/login", "/api/login", "/login/"]

/-- The candidate loop of `_login` over the remaining endpoints, with `k`
the index of the next HTTP request; returns the authentication outcome
together with the total number of requests issued. Per candidate: JSON
POST first; 200-with-success or 200-with-unparseable-body succeeds
immediately; 404 moves on; any other status is retried once with a
form-encoded body (a second request); a timeout or an unexpected
exception moves on; a connection error aborts with failure. -/
def login_attempts (respond : Nat → NetResult) : Nat → List String → Bool × Nat
  | k, [] => (false, k)
  | k, _endpoint :: rest =>
    match respond k with
    | .timeout => login_attempts respond (k + 1) rest
    | .connError => (false, k + 1)
    | .otherError => login_attempts respond (k + 1) rest
    | .http status jsonSuccess =>
      if status = 200 then
        match jsonSuccess with
        | some true => (true, k + 1)
        | some false => login_attempts respond (k + 1) rest
        | none => (true, k + 1)
      else if status = 404 then
        login_attempts respond (k + 1) rest
      else
        match respond (k + 1) with
        | .http status2 _ =>
          if status2 = 200 then (true, k + 2)
          else login_attempts respond (k + 2) rest
        | .timeout => login_attempts respond (k + 2) rest
        | .connError => (false, k + 2)
        | .otherError => login_attempts respond (k + 2) rest

/-- `XUIService._login`: cycle through the four candidate endpoints. -/
def login (respond : Nat → NetResult) : Bool × Nat :=
  login_attempts respond 0 login_endpoints


/-! ### Helper lemmas -/

theorem scanClients_none_of_forall_ne (cfg : Config) (cid : Int) (u : String) :
    ∀ L : List Client, (∀ c ∈ L, c.email ≠ u) → scanClients cfg cid u L = none := by
  intro L
  induction L with
  | nil => intro _; rfl
  | cons c rest ih =>
    intro h
    have hc : c.email ≠ u := h c (by simp)
    simp only [scanClients, if_neg hc]
    exact ih (fun x hx => h x (List.mem_cons_of_mem c hx))

theorem scanClients_append (cfg : Config) (cid : Int) (u : String) (M : List Client) :
    ∀ L : List Client, (∀ c ∈ L, c.email ≠ u) →
      scanClients cfg cid u (L ++ M) = scanClients cfg cid u M := by
  intro L
  induction L with
  | nil => intro _; rfl
  | cons c rest ih =>
    intro h
    have hc : c.email ≠ u := h c (by simp)
    simp only [List.cons_append, scanClients, if_neg hc]
    exact ih (fun x hx => h x (List.mem_cons_of_mem c hx))

theorem scanClients_eq_find (cfg : Config) (cid : Int) (u : String) :
    ∀ L : List Client, scanClients cfg cid u L =
      (L.find? (fun c => c.email == u && c.subId != "")).map
        (fun c => { username := u, sub_id := c.subId, uuid := c.id,
                    subscription_url := get_subscription_url cfg c.subId,
                    inbound_id := cid }) := by
  intro L
  induction L with
  | nil => rfl
  | cons c rest ih =>
    by_cases h1 : c.email = u
    · have e1 : (c.email == u) = true := beq_iff_eq.mpr h1
      by_cases h2 : c.subId = ""
      · have e2 : (c.subId != "") = false := by simp [h2]
        simp [scanClients, h1, h2, List.find?, e1, e2, ih]
      · have e2 : (c.subId != "") = true := bne_iff_ne.mpr h2
        simp [scanClients, h1, h2, List.find?, e1, e2]
    · have e1 : (c.email == u) = false := by simp [h1]
      simp [scanClients, h1, List.find?, e1, ih]

theorem deviceLabel_spec (b e : String) :
    deviceLabel (some b) e =
      if e = b then "Основное устройство"
      else if strStartsWith e (b ++ "_") then
        (if strDrop e (strLength b + 1) = "" then e else strDrop e (strLength b + 1))
      else e := by
  unfold deviceLabel
  by_cases h1 : e = b
  · simp [h1]
  · by_cases h2 : strStartsWith e (b ++ "_")
    · simp only [h1, if_neg, if_pos h2, ite_not]
      by_cases h3 : strDrop e (strLength b + 1) = "" <;> simp [h1, h2, h3]
    · simp [h1, h2]

theorem collectSubs_eq_filterMap (cfg : Config) (tg : Int) (base : Option String) :
    ∀ L : List Client, collectSubs cfg tg base L =
      L.filterMap (fun c =>
        if c.tgId = toString tg ∧ c.subId ≠ "" then
          some { email := c.email,
                 subscription_url := get_subscription_url cfg c.subId,
                 device_name := deviceLabel base c.email,
                 sub_id := c.subId }
        else none) := by
  intro L
  induction L with
  | nil => rfl
  | cons c rest ih =>
    by_cases h1 : c.tgId = toString tg
    · by_cases h2 : c.subId = ""
      · simp [collectSubs, h1, h2, ih]
      · simp [collectSubs, h1, h2, ih]
    · simp [collectSubs, h1, ih]

/-! ### Claim C10 -/

/-- C10: for every owner id and optional base username,
`get_user_subscription` returns exactly the subscription URL of the first
element of the list produced by `get_all_user_subscriptions` for the same
arguments, and `none` when that list is empty. -/
theorem C10_head_of_list (cfg : Config) (auth_ok : Bool)
    (fetch : Nat → Option (List Inbound)) (k : Nat) (tg : Int)
    (username : Option String) :
    get_user_subscription cfg auth_ok fetch k tg username =
      (get_all_user_subscriptions cfg auth_ok fetch k tg username).head?.map
        SubEntry.subscription_url := by
  unfold get_user_subscription
  rcases get_all_user_subscriptions cfg auth_ok fetch k tg username with _ | ⟨s, rest⟩ <;> rfl

/-! ### Claim C3 -/

/-- Concrete configuration refuting C3 as stated: the admin base URL has a
colon inside its path and no explicit port. -/
def c3Cfg : Config :=
  { base_url := "https://panel.example.com/admin:x", sub_host := "", sub_port := "2096",
    default_protocol := "vless", default_total_gb := 100, default_inbound_id := some 1 }

/-- C3 is false as stated: with subscription port override `"2096"` and
base URL `https://panel.example.com/admin:x`, the claim's rule (strip
scheme, any path, any explicit port) demands host `panel.example.com`,
but the code splits at the first colon of the scheme-stripped string and
keeps the path `\x2fadmin` in the host. -/
theorem C3_url_counterexample :
    get_subscription_url c3Cfg "Ab12_-xyz" =
      "https://panel.example.com/admin:2096/sub/Ab12_-xyz"
    ∧ get_subscription_url c3Cfg "Ab12_-xyz" ≠
      "https://panel.example.com:2096/sub/Ab12_-xyz" := by decide

/-- Host extraction of the port-override branch (b), as the code actually
computes it: the prefix before the first colon of the scheme-stripped base
URL when a colon occurs anywhere (which strips an explicit port together
with everything after it, but keeps a path whose first colon-free part
precedes a colon inside the path); otherwise the prefix before the first
slash; otherwise the whole string. -/
def hostForPortOverride (b : String) : String :=
  if strContains b ':' then strTakeUntil b ':'
  else if strContains b '/' then strTakeUntil b '/'
  else b

/-- Host extraction of the fallback branch (c): truncate the
scheme-stripped base URL at the first slash, then at the first colon. -/
def hostFallback (b : String) : String :=
  let host_port := if strContains b '/' then strTakeUntil b '/' else b
  if strContains host_port ':' then strTakeUntil host_port ':' else host_port

/-- Scheme stripping as the code performs it (`str.replace` of both
scheme spellings, applied to the whole string). -/
def stripScheme (s : String) : String :=
  replaceAllStr (replaceAllStr s "https://" "") "http://" ""

/-- C3 (amended): the priority order of the three rules is as claimed, and
rules (a) and (c) behave as claimed; in rule (b) the host is the prefix of
the scheme-stripped admin base URL before its first colon when a colon
occurs (else before the first slash, else the whole string), which equals
the claimed "strip path and port" host whenever no colon appears inside
the path, but keeps the path otherwise. The spec's three worked examples
hold. -/
theorem C3_url_rules :
    (∀ cfg sid, cfg.sub_host ≠ "" →
        get_subscription_url cfg sid = "https://" ++ cfg.sub_host ++ "/sub/" ++ sid)
    ∧ (∀ cfg sid, cfg.sub_host = "" → cfg.sub_port ≠ "" →
        get_subscription_url cfg sid =
          "https://" ++ hostForPortOverride (stripScheme cfg.base_url) ++ ":" ++
            cfg.sub_port ++ "/sub/" ++ sid)
    ∧ (∀ cfg sid, cfg.sub_host = "" → cfg.sub_port = "" →
        get_subscription_url cfg sid =
          "https://" ++ hostFallback (stripScheme cfg.base_url) ++ ":2096/sub/" ++ sid)
    ∧ get_subscription_url
        { base_url := "https://x", sub_host := "1.2.3.4:2096", sub_port := "",
          default_protocol := "vless", default_total_gb := 100, default_inbound_id := none }
        "Ab12_-xyz" = "https://1.2.3.4:2096/sub/Ab12_-xyz"
    ∧ get_subscription_url
        { base_url := "https://panel.example.com:54321/admin", sub_host := "", sub_port := "2096",
          default_protocol := "vless", default_total_gb := 100, default_inbound_id := none }
        "Ab12_-xyz" = "https://panel.example.com:2096/sub/Ab12_-xyz"
    ∧ get_subscription_url
        { base_url := "https://panel.example.com/admin", sub_host := "", sub_port := "",
          default_protocol := "vless", default_total_gb := 100, default_inbound_id := none }
        "Ab12_-xyz" = "https://panel.example.com:2096/sub/Ab12_-xyz" := by
  refine ⟨?_, ?_, ?_, by decide, by decide, by decide⟩
  · intro cfg sid h
    simp [get_subscription_url, h]
  · intro cfg sid h1 h2
    unfold get_subscription_url
    rw [if_neg (by simp [h1]), if_pos h2]
    rfl
  · intro cfg sid h1 h2
    unfold get_subscription_url hostFallback stripScheme
    rw [if_neg (by simp [h1]), if_neg (by simp [h2])]
    by_cases hs :
        strContains (replaceAllStr (replaceAllStr cfg.base_url "https://" "") "http://" "") '/' = true
    · by_cases hc :
          strContains
            (strTakeUntil (replaceAllStr (replaceAllStr cfg.base_url "https://" "") "http://" "") '/')
            ':' = true
      · simp [hs, hc]
      · simp [hs, hc]
    · by_cases hc :
          strContains (replaceAllStr (replaceAllStr cfg.base_url "https://" "") "http://" "") ':' = true
      · simp [hs, hc]
      · simp [hs, hc]

/-- Witness for `C3_url_rules`: instantiating the port-override rule at a
concrete configuration. -/
theorem C3_url_rules_witness :
    ("" : String) = "" ∧ ("8443" : String) ≠ "" ∧
    get_subscription_url
      { base_url := "https://panel.example.com:54321/admin", sub_host := "", sub_port := "8443",
        default_protocol := "vless", default_total_gb := 100, default_inbound_id := none }
      "tok" =
      "https://" ++
        hostForPortOverride (stripScheme "https://panel.example.com:54321/admin") ++
        ":" ++ "8443" ++ "/sub/" ++ "tok" :=
  ⟨rfl, by decide,
    C3_url_rules.2.1
      { base_url := "https://panel.example.com:54321/admin", sub_host := "", sub_port := "8443",
        default_protocol := "vless", default_total_gb := 100, default_inbound_id := none }
      "tok" rfl (by decide)⟩

/-! ### Claim C5 -/

/-- Configuration with no fixed inbound id, used against a panel with no
enabled matching inbound. -/
def c5Cfg : Config :=
  { base_url := "https://panel.example.com", sub_host := "", sub_port := "",
    default_protocol := "vless", default_total_gb := 100, default_inbound_id := none }

/-- C5 is false as stated: with a valid username and no determinable
target inbound (no configured inbound id, empty inbound list), the run
returns the untagged absence value `none` (Python `None`), not a tagged
`NoInboundAvailable` rejection — the modelled result type, read off the
source, has no such tag at all. -/
theorem C5_no_inbound_counterexample :
    create_user c5Cfg true (fun _ => some []) { status := 200, body := some ⟨true, ""⟩ }
      "uu" "ss" 7 (some "alice") none = none := by decide

/-- C5 (amended): when the identity has a username but no target inbound
can be determined (no configured inbound id and `_get_existing_inbound`
finds nothing), `create_user` returns Python `None` — the same untagged
absence used for authentication and creation failures — rather than any
tagged outcome; tagged dictionaries are produced only for the
missing-username, too-many-devices and already-exists outcomes. -/
theorem C5_no_inbound_none (cfg : Config) (fetch : Nat → Option (List Inbound))
    (addResp : AddResp) (uuid sid : String) (tg : Int) (u : String)
    (dev : Option String) (email : String) (k : Nat)
    (hu : u ≠ "")
    (hdet : determineEmail cfg fetch u dev = .ok email k)
    (hnoid : cfg.default_inbound_id = none)
    (hnoinb : get_existing_inbound true fetch k cfg.default_protocol = none) :
    create_user cfg true fetch addResp uuid sid tg (some u) dev = none := by
  unfold create_user inboundChoice
  simp [hu, hdet, hnoid, hnoinb]

/-- Witness for `C5_no_inbound_none` at a panel whose only inbound is
disabled. -/
theorem C5_no_inbound_witness :
    determineEmail c5Cfg (fun _ => some [⟨1, false, "vless", []⟩]) "alice" none = .ok "alice" 1
    ∧ create_user c5Cfg true (fun _ => some [⟨1, false, "vless", []⟩])
        { status := 200, body := some ⟨true, ""⟩ } "uu" "ss" 7 (some "alice") none = none :=
  ⟨by decide,
    C5_no_inbound_none c5Cfg (fun _ => some [⟨1, false, "vless", []⟩])
      { status := 200, body := some ⟨true, ""⟩ } "uu" "ss" 7 "alice" none "alice" 1
      (by decide) (by decide) rfl (by decide)⟩

/-! ### Claim C6 -/

/-- Panel content refuting C6 as stated: one record whose email equals the
query but whose `subId` is empty. -/
def c6Inbound : Inbound := ⟨1, true, "vless", [⟨some "u1", "alice", "1", ""⟩]⟩

/-- Configuration used by the C6 scenarios. -/
def c6Cfg : Config :=
  { base_url := "https://panel.example.com", sub_host := "", sub_port := "",
    default_protocol := "vless", default_total_gb := 100, default_inbound_id := some 1 }

/-- C6 is false as stated: a record with the queried email exists in the
fetched inbound, yet `find_user_by_username` returns `none`, because the
scan only returns a match whose `subId` is non-empty. -/
theorem C6_find_counterexample :
    find_user_by_username c6Cfg (fun _ => some [c6Inbound]) 0 "alice" (some 1) = none
    ∧ ∃ c ∈ c6Inbound.clients, c.email = "alice" := by decide

/-- C6 (amended): `find_user_by_username` returns the first client of the
fetched inbound whose email equals the query AND whose `subId` is
non-empty (with its derived subscription URL), and `none` when no such
client exists — in particular `none` when the only email matches lack a
`subId`. -/
theorem C6_find_by_email (cfg : Config) (fetch : Nat → Option (List Inbound))
    (k : Nat) (u : String) (cid : Int) (ib : Inbound)
    (hcid : cid ≠ 0) (hib : get_inbound_clients fetch k cid = some ib) :
    find_user_by_username cfg fetch k u (some cid) =
      (ib.clients.find? (fun c => c.email == u && c.subId != "")).map
        (fun c => { username := u, sub_id := c.subId, uuid := c.id,
                    subscription_url := get_subscription_url cfg c.subId,
                    inbound_id := cid }) := by
  unfold find_user_by_username
  simp [hcid, hib, scanClients_eq_find]

/-- Witness for `C6_find_by_email`: the first matching record with a
`subId` is returned, skipping an earlier email match without one. -/
def c6wInbound : Inbound :=
  ⟨5, true, "vless",
    [⟨some "u1", "alice", "2", ""⟩, ⟨some "u2", "alice", "3", "sub1"⟩]⟩

theorem C6_find_by_email_witness :
    (5 : Int) ≠ 0 ∧
    find_user_by_username c6Cfg (fun _ => some [c6wInbound]) 0 "alice" (some 5) =
      some { username := "alice", sub_id := "sub1", uuid := some "u2",
             subscription_url := get_subscription_url c6Cfg "sub1", inbound_id := 5 } :=
  ⟨by decide,
    (C6_find_by_email c6Cfg (fun _ => some [c6wInbound]) 0 "alice" 5 c6wInbound
        (by decide) (by decide)).trans (by decide)⟩

/-! ### Claim C4 -/

/-- Configuration for the C4 scenarios. -/
def c4Cfg : Config :=
  { base_url := "https://panel.example.com", sub_host := "", sub_port := "",
    default_protocol := "vless", default_total_gb := 100, default_inbound_id := some 1 }

/-- Panel content refuting C4 as stated: a kept record whose email is the
base username followed by the separator only, so the remainder after the
prefix is empty. -/
def c4Inbound : Inbound := ⟨1, true, "vless", [⟨some "u1", "alice_", "7", "s1"⟩]⟩

/-- C4 is false as stated: for the kept record with email `alice_` (which
starts with `alice` + `_`), the claim demands the remainder after the
prefix — the empty string — as device label, but the code's
`device_name or client_email` fallback yields the raw email `alice_`. -/
theorem C4_list_counterexample :
    (get_all_user_subscriptions c4Cfg true (fun _ => some [c4Inbound]) 0 7 (some "alice")).map
        SubEntry.device_name = ["alice_"]
    ∧ strStartsWith "alice_" ("alice" ++ "_") = true
    ∧ strDrop "alice_" (strLength "alice" + 1) = ""
    ∧ ("alice_" : String) ≠ "" := by decide

/-- C4 (amended): with a present base username, the lookup keeps exactly
the panel-order records whose `tgId` equals the string form of the queried
id and whose `subId` is present and non-empty; the device label is the
primary-device label on an exact match, the remainder after `username_`
when the email starts with that prefix and the remainder is non-empty,
and the raw email otherwise (including the empty-remainder case). -/
theorem C4_list_by_owner (cfg : Config) (fetch : Nat → Option (List Inbound))
    (k : Nat) (tg : Int) (b : String) (ibid : Int) (ib : Inbound)
    (hb : b ≠ "") (hid : cfg.default_inbound_id = some ibid) (hibid : ibid ≠ 0)
    (hib : get_inbound_clients fetch k ibid = some ib) :
    get_all_user_subscriptions cfg true fetch k tg (some b) =
      ib.clients.filterMap (fun c =>
        if c.tgId = toString tg ∧ c.subId ≠ "" then
          some { email := c.email,
                 subscription_url := get_subscription_url cfg c.subId,
                 device_name :=
                   if c.email = b then "Основное устройство"
                   else if strStartsWith c.email (b ++ "_") then
                     (if strDrop c.email (strLength b + 1) = "" then c.email
                      else strDrop c.email (strLength b + 1))
                   else c.email,
                 sub_id := c.subId }
        else none) := by
  unfold get_all_user_subscriptions
  simp only [hid, hib, Bool.not_true, if_neg hibid, if_neg hb, Bool.false_eq_true, if_false,
    collectSubs_eq_filterMap, deviceLabel_spec]

/-- Witness for `C4_list_by_owner`: owner filtering, subId dropping, order
preservation and all three label cases at one concrete panel state. -/
def c4wInbound : Inbound :=
  ⟨1, true, "vless",
    [⟨some "u1", "alice", "7", "s1"⟩, ⟨some "u2", "alice_phone", "7", "s2"⟩,
     ⟨some "u3", "bob", "8", "s3"⟩, ⟨some "u4", "alice_pad", "7", ""⟩,
     ⟨some "u5", "charlie", "7", "s5"⟩]⟩

theorem C4_list_by_owner_witness :
    ("alice" : String) ≠ "" ∧
    get_all_user_subscriptions c4Cfg true (fun _ => some [c4wInbound]) 0 7 (some "alice") =
      [{ email := "alice", subscription_url := "https://panel.example.com:2096/sub/s1",
         device_name := "Основное устройство", sub_id := "s1" },
       { email := "alice_phone", subscription_url := "https://panel.example.com:2096/sub/s2",
         device_name := "phone", sub_id := "s2" },
       { email := "charlie", subscription_url := "https://panel.example.com:2096/sub/s5",
         device_name := "charlie", sub_id := "s5" }] :=
  ⟨by decide,
    (C4_list_by_owner c4Cfg (fun _ => some [c4wInbound]) 0 7 "alice" 1 c4wInbound
        (by decide) rfl (by decide) (by decide)).trans (by decide)⟩

/-! ### Claim C1 -/

/-- Configuration used by the C1 scenarios. -/
def c1Cfg : Config :=
  { base_url := "https://panel.example.com", sub_host := "", sub_port := "",
    default_protocol := "vless", default_total_gb := 100, default_inbound_id := some 1 }

/-- Panel trace for the C1 counterexample: the pre-check fetch sees no
clients (so the candidate `alice_phone` is chosen without probing); by the
time the conflict re-query fetches again, an account with email
`alice_phone` exists (the situation the existence-indicating failure of
the add-client call reports). -/
def c1Fetch : Nat → Option (List Inbound) :=
  fun k =>
    if k = 0 then some [⟨1, true, "vless", []⟩]
    else some [⟨1, true, "vless", [⟨some "u0", "alice_phone", "9", "s0"⟩]⟩]

/-- C1 is false as stated: the add-client call fails with an
existence-indicating message, the submitted candidate email was
`alice_phone`, and a re-query by that candidate email would find the
account (third conjunct) — yet `create_user` returns `none`, because the
code re-queries by the bare username `alice` instead. -/
theorem C1_requery_counterexample :
    create_user c1Cfg true c1Fetch
      { status := 200, body := some ⟨false, "Duplicate email: alice_phone already exists"⟩ }
      "uu" "ss" 9 (some "alice") (some "phone") = none
    ∧ determineEmail c1Cfg c1Fetch "alice" (some "phone") = .ok "alice_phone" 1
    ∧ find_user_by_username c1Cfg c1Fetch 1 "alice_phone" (some 1) =
        some { username := "alice_phone", sub_id := "s0", uuid := some "u0",
               subscription_url := "https://panel.example.com:2096/sub/s0",
               inbound_id := 1 } := by decide

/-- C1 (amended): when the add-client call fails (200 with a failure
payload, or non-200 with a parseable payload) and the failure text
contains an existence-indicating substring, `create_user` re-queries by
the BARE USERNAME — not by the possibly device-suffixed candidate email
that was submitted — in the target inbound, and returns the
already-exists outcome carrying that account's URL when this re-query
finds one. -/
theorem C1_requery_bare_username (cfg : Config) (fetch : Nat → Option (List Inbound))
    (addResp : AddResp) (uuid sid : String) (tg : Int) (u : String) (dev : Option String)
    (email : String) (k : Nat) (ibid : Int) (k2 : Nat) (found : FoundUser) (b : AddBody)
    (hu : u ≠ "")
    (hdet : determineEmail cfg fetch u dev = .ok email k)
    (hinb : inboundChoice cfg fetch k = some (ibid, k2))
    (hbody : addResp.body = some b)
    (hfail : addResp.status = 200 → b.success = false)
    (hmsg : errorIndicatesExists b.msg = true)
    (hfound : find_user_by_username cfg fetch k2 u (some ibid) = some found) :
    create_user cfg true fetch addResp uuid sid tg (some u) dev =
      some (.usernameExists (existsMsg u) found.subscription_url) := by
  unfold create_user
  by_cases hs : addResp.status = 200
  · simp [hu, hdet, hinb, hs, hbody, hfail hs, hmsg, hfound]
  · simp [hu, hdet, hinb, hs, hbody, hmsg, hfound]

/-- Witness for `C1_requery_bare_username`: here the bare username does
resolve at re-query time, so the already-exists outcome carries that
(primary) account's URL. -/
def c1wFetch : Nat → Option (List Inbound) :=
  fun k =>
    if k = 0 then some [⟨1, true, "vless", []⟩]
    else some [⟨1, true, "vless", [⟨some "u0", "alice", "9", "s0"⟩]⟩]

theorem C1_requery_witness :
    create_user c1Cfg true c1wFetch
      { status := 200, body := some ⟨false, "already exists"⟩ }
      "uu" "ss" 9 (some "alice") (some "phone") =
      some (.usernameExists (existsMsg "alice")
        (FoundUser.subscription_url
          { username := "alice", sub_id := "s0", uuid := some "u0",
            subscription_url := "https://panel.example.com:2096/sub/s0", inbound_id := 1 })) :=
  C1_requery_bare_username c1Cfg c1wFetch
    { status := 200, body := some ⟨false, "already exists"⟩ }
    "uu" "ss" 9 "alice" (some "phone") "alice_phone" 1 1 1
    { username := "alice", sub_id := "s0", uuid := some "u0",
      subscription_url := "https://panel.example.com:2096/sub/s0", inbound_id := 1 }
    ⟨false, "already exists"⟩
    (by decide) (by decide) (by decide) rfl (fun _ => rfl) (by decide) (by decide)

/-! ### Claim C7 -/

/-- Configuration used by the C7 scenarios. -/
def c7Cfg : Config :=
  { base_url := "https://panel.example.com", sub_host := "", sub_port := "",
    default_protocol := "vless", default_total_gb := 100, default_inbound_id := some 1 }

/-- C7: for an identity with a username, no device and no prior account
with email = username, the first `create_user` chooses the bare username
as email (first conjunct) and returns the created outcome whose URL is
derived from the fresh `subId` (second conjunct); after the panel has
appended the submitted client, a second no-device call short-circuits to
the already-exists outcome carrying the identical URL (third conjunct). -/
theorem C7_idempotent_create (cfg : Config) (ib : Inbound) (uuid sid uuid2 sid2 m : String)
    (addResp2 : AddResp) (tg : Int) (u : String) (ibid : Int)
    (hu : u ≠ "") (hsid : sid ≠ "")
    (hid : cfg.default_inbound_id = some ibid) (hibid : ibid ≠ 0) (hibId : ib.id = ibid)
    (hfree : ∀ c ∈ ib.clients, c.email ≠ u) :
    determineEmail cfg (fun _ => some [ib]) u none = .ok u 1
    ∧ create_user cfg true (fun _ => some [ib]) { status := 200, body := some ⟨true, m⟩ }
        uuid sid tg (some u) none =
        some (.createdOk uuid sid ibid (get_subscription_url cfg sid) cfg.default_total_gb)
    ∧ create_user cfg true
        (fun _ => some [{ ib with clients := ib.clients ++ [submittedClient uuid u tg sid] }])
        addResp2 uuid2 sid2 tg (some u) none =
        some (.usernameExists (existsMsg u) (get_subscription_url cfg sid)) := by
  have hfind1 : find_user_by_username cfg (fun _ => some [ib]) 0 u none = none := by
    unfold find_user_by_username get_inbound_clients
    simp [hid, hibid, List.find?, hibId,
      scanClients_none_of_forall_ne cfg ibid u ib.clients hfree]
  have hdet1 : determineEmail cfg (fun _ => some [ib]) u none = .ok u 1 := by
    unfold determineEmail primaryEmail
    rw [hfind1]
  refine ⟨hdet1, ?_, ?_⟩
  · unfold create_user inboundChoice
    simp [hu, hdet1, hid]
  · have hfind2 : find_user_by_username cfg
        (fun _ => some [{ ib with clients := ib.clients ++ [submittedClient uuid u tg sid] }])
        0 u none =
        some { username := u, sub_id := sid, uuid := some uuid,
               subscription_url := get_subscription_url cfg sid, inbound_id := ibid } := by
      unfold find_user_by_username get_inbound_clients
      simp only [hid, if_neg hibid, List.find?, hibId]
      simp only [beq_self_eq_true]
      rw [scanClients_append cfg ibid u [submittedClient uuid u tg sid] ib.clients hfree]
      simp [scanClients, submittedClient, hsid]
    have hdet2 : determineEmail cfg
        (fun _ => some [{ ib with clients := ib.clients ++ [submittedClient uuid u tg sid] }])
        u none = .already (existsMsg u) (get_subscription_url cfg sid) := by
      unfold determineEmail primaryEmail
      rw [hfind2]
    unfold create_user
    simp [hu, hdet2]

/-- Witness for `C7_idempotent_create` on an initially empty inbound. -/
def c7Inbound : Inbound := ⟨1, true, "vless", []⟩

theorem C7_idempotent_create_witness :
    ("alice" : String) ≠ "" ∧ ("SID1" : String) ≠ "" ∧
    (determineEmail c7Cfg (fun _ => some [c7Inbound]) "alice" none = .ok "alice" 1
     ∧ create_user c7Cfg true (fun _ => some [c7Inbound])
         { status := 200, body := some ⟨true, ""⟩ } "u-1" "SID1" 7 (some "alice") none =
         some (.createdOk "u-1" "SID1" 1 (get_subscription_url c7Cfg "SID1")
           c7Cfg.default_total_gb)
     ∧ create_user c7Cfg true
         (fun _ => some [{ c7Inbound with
            clients := c7Inbound.clients ++ [submittedClient "u-1" "alice" 7 "SID1"] }])
         { status := 200, body := some ⟨true, ""⟩ } "u-2" "SID2" 7 (some "alice") none =
         some (.usernameExists (existsMsg "alice") (get_subscription_url c7Cfg "SID1"))) :=
  ⟨by decide, by decide,
    C7_idempotent_create c7Cfg c7Inbound "u-1" "SID1" "u-2" "SID2" ""
      { status := 200, body := some ⟨true, ""⟩ } 7 "alice" 1
      (by decide) (by decide) rfl (by decide) rfl (by decide)⟩

/-! ### Claim C2 -/

theorem probeLoop_none_of_taken (cfg : Config) (fetch : Nat → Option (List Inbound))
    (base : String) :
    ∀ fuel k counter, fuel + counter = 101 → 2 ≤ counter → counter ≤ 100 →
      (∀ i, i ≤ 100 → counter ≤ i →
        (find_user_by_username cfg fetch (k + (i - counter))
          (base ++ "_" ++ toString i) none).isSome = true) →
      probeLoop cfg fetch base fuel k counter = none := by
  intro fuel
  induction fuel with
  | zero =>
    intro k counter hsum h2 h100 _
    omega
  | succ fuel1 ih =>
    intro k counter hsum h2 h100 htaken
    have h0 := htaken counter h100 (Nat.le_refl counter)
    rw [Nat.sub_self, Nat.add_zero] at h0
    obtain ⟨v, hv⟩ := Option.isSome_iff_exists.mp h0
    by_cases hc : counter + 1 > 100
    · simp only [probeLoop]
      rw [hv]
      simp [hc]
    · simp only [probeLoop]
      rw [hv]
      simp only [if_neg hc]
      exact ih (k + 1) (counter + 1) (by omega) (by omega) (by omega)
        (fun i hi1 hi2 => by
          have h3 := htaken i hi1 (by omega)
          have harith : k + 1 + (i - (counter + 1)) = k + (i - counter) := by omega
          rw [harith]
          exact h3)

theorem probeLoop_first_free (cfg : Config) (fetch : Nat → Option (List Inbound))
    (base : String) :
    ∀ fuel k counter j, fuel + counter = 101 → 2 ≤ counter → counter ≤ j → j ≤ 100 →
      (∀ i, i < j → counter ≤ i →
        (find_user_by_username cfg fetch (k + (i - counter))
          (base ++ "_" ++ toString i) none).isSome = true) →
      find_user_by_username cfg fetch (k + (j - counter))
        (base ++ "_" ++ toString j) none = none →
      probeLoop cfg fetch base fuel k counter =
        some (base ++ "_" ++ toString j, k + (j - counter) + 1) := by
  intro fuel
  induction fuel with
  | zero =>
    intro k counter j hsum h2 hcj hj _ _
    omega
  | succ fuel1 ih =>
    intro k counter j hsum h2 hcj hj htaken hfree
    by_cases hje : counter = j
    · subst hje
      rw [Nat.sub_self, Nat.add_zero] at hfree
      simp only [probeLoop]
      rw [hfree]
      simp [Nat.sub_self]
    · have hlt : counter < j := by omega
      have h0 := htaken counter hlt (Nat.le_refl counter)
      rw [Nat.sub_self, Nat.add_zero] at h0
      obtain ⟨v, hv⟩ := Option.isSome_iff_exists.mp h0
      have hc : ¬ (counter + 1 > 100) := by omega
      simp only [probeLoop]
      rw [hv]
      simp only [if_neg hc]
      have hrec := ih (k + 1) (counter + 1) j (by omega) (by omega) (by omega) hj
        (fun i hi1 hi2 => by
          have h3 := htaken i hi1 (by omega)
          have harith : k + 1 + (i - (counter + 1)) = k + (i - counter) := by omega
          rw [harith]
          exact h3)
        (by
          have harith : k + 1 + (j - (counter + 1)) = k + (j - counter) := by omega
          rw [harith]
          exact hfree)
      have harith2 : k + 1 + (j - (counter + 1)) + 1 = k + (j - counter) + 1 := by omega
      rw [harith2] at hrec
      exact hrec

/-- C2: with a device label, when the key `username_device` is taken the
code probes `username_device_2`, `_3`, … in increasing order (probe `i`
is the `i - 1`-st list fetch) and uses the first free key (first
conjunct); when every key up to the suffix `_100` is taken, `create_user`
returns the too-many-devices rejection (second conjunct). -/
theorem C2_device_probe :
    (∀ (cfg : Config) (fetch : Nat → Option (List Inbound)) (u d : String) (j : Nat),
      d ≠ "" → 2 ≤ j → j ≤ 100 →
      (find_user_by_username cfg fetch 0 (u ++ "_" ++ d) none).isSome = true →
      (∀ i, i < j → 2 ≤ i →
        (find_user_by_username cfg fetch (i - 1)
          (u ++ "_" ++ d ++ "_" ++ toString i) none).isSome = true) →
      find_user_by_username cfg fetch (j - 1) (u ++ "_" ++ d ++ "_" ++ toString j) none = none →
      determineEmail cfg fetch u (some d) = .ok (u ++ "_" ++ d ++ "_" ++ toString j) j)
    ∧ (∀ (cfg : Config) (fetch : Nat → Option (List Inbound)) (addResp : AddResp)
        (uuid sid : String) (tg : Int) (u d : String),
      u ≠ "" → d ≠ "" →
      (find_user_by_username cfg fetch 0 (u ++ "_" ++ d) none).isSome = true →
      (∀ i, i ≤ 100 → 2 ≤ i →
        (find_user_by_username cfg fetch (i - 1)
          (u ++ "_" ++ d ++ "_" ++ toString i) none).isSome = true) →
      create_user cfg true fetch addResp uuid sid tg (some u) (some d) =
        some (.tooManyDevices tooManyMsg)) := by
  constructor
  · intro cfg fetch u d j hd h2 h100 h0 htaken hfree
    obtain ⟨v, hv⟩ := Option.isSome_iff_exists.mp h0
    have hp := probeLoop_first_free cfg fetch (u ++ "_" ++ d) 99 1 2 j (by omega) (by omega)
      (by omega) h100
      (fun i hi1 hi2 => by
        have h3 := htaken i hi1 hi2
        have harith : 1 + (i - 2) = i - 1 := by omega
        rw [harith]
        exact h3)
      (by
        have harith : 1 + (j - 2) = j - 1 := by omega
        rw [harith]
        exact hfree)
    have harith2 : 1 + (j - 2) + 1 = j := by omega
    rw [harith2] at hp
    simp only [determineEmail]
    rw [if_pos hd]
    simp only [deviceEmail]
    rw [hv, hp]
  · intro cfg fetch addResp uuid sid tg u d hu hd h0 htaken
    obtain ⟨v, hv⟩ := Option.isSome_iff_exists.mp h0
    have hp := probeLoop_none_of_taken cfg fetch (u ++ "_" ++ d) 99 1 2 (by omega) (by omega)
      (by omega)
      (fun i hi1 hi2 => by
        have h3 := htaken i hi1 hi2
        have harith : 1 + (i - 2) = i - 1 := by omega
        rw [harith]
        exact h3)
    have hdet : determineEmail cfg fetch u (some d) = .tooMany tooManyMsg := by
      simp only [determineEmail]
      rw [if_pos hd]
      simp only [deviceEmail]
      rw [hv, hp]
    unfold create_user
    simp [hu, hdet]

/-- The spec's probing scenario: 100 pre-existing accounts `alice_phone`,
`alice_phone_2`, …, `alice_phone_100`, all with a subscription id. -/
def aliceClients : List Client :=
  ⟨none, "alice_phone", "1", "s"⟩ ::
    (List.range 99).map (fun i => ⟨none, "alice_phone_" ++ toString (i + 2), "1", "s"⟩)

def aliceInbound : Inbound := ⟨1, true, "vless", aliceClients⟩

def aliceCfg : Config :=
  { base_url := "https://panel.example.com", sub_host := "", sub_port := "",
    default_protocol := "vless", default_total_gb := 100, default_inbound_id := some 1 }

def aliceFetch : Nat → Option (List Inbound) := fun _ => some [aliceInbound]

/-- Witness for `C2_device_probe`: the 101st `create_user (alice, phone)`
against the 100 pre-existing accounts is rejected with too many devices. -/
theorem C2_device_probe_witness :
    (find_user_by_username aliceCfg aliceFetch 0 ("alice" ++ "_" ++ "phone") none).isSome = true
    ∧ create_user aliceCfg true aliceFetch { status := 200, body := some ⟨true, ""⟩ }
        "uu" "ss" 1 (some "alice") (some "phone") =
        some (.tooManyDevices tooManyMsg) :=
  ⟨by decide,
    C2_device_probe.2 aliceCfg aliceFetch { status := 200, body := some ⟨true, ""⟩ }
      "uu" "ss" 1 "alice" "phone" (by decide) (by decide) (by decide) (by decide)⟩

/-! ### Claim C8 -/

/-- C8: `_login` tries candidates in order: a 404 moves to the next
candidate (second conjunct), a 200 with the explicit success flag, or a
200 whose body is not parseable, stops immediately with success (third
and fourth conjuncts); consequently, candidates answering 404, 404, then
200-with-success make authentication succeed after exactly three requests,
whatever the oracle would answer later (first conjunct). -/
theorem C8_login_cycling :
    (∀ (respond : Nat → NetResult) (b1 b2 : Option Bool),
      respond 0 = .http 404 b1 → respond 1 = .http 404 b2 →
      respond 2 = .http 200 (some true) →
      login respond = (true, 3))
    ∧ (∀ (respond : Nat → NetResult) (k : Nat) (e : String) (rest : List String)
        (b : Option Bool), respond k = .http 404 b →
        login_attempts respond k (e :: rest) = login_attempts respond (k + 1) rest)
    ∧ (∀ (respond : Nat → NetResult) (k : Nat) (e : String) (rest : List String),
        respond k = .http 200 (some true) →
        login_attempts respond k (e :: rest) = (true, k + 1))
    ∧ (∀ (respond : Nat → NetResult) (k : Nat) (e : String) (rest : List String),
        respond k = .http 200 none →
        login_attempts respond k (e :: rest) = (true, k + 1)) := by
  have h404 : ∀ (respond : Nat → NetResult) (k : Nat) (e : String) (rest : List String)
      (b : Option Bool), respond k = .http 404 b →
      login_attempts respond k (e :: rest) = login_attempts respond (k + 1) rest := by
    intro respond k e rest b h
    simp only [login_attempts]
    rw [h]
    simp
  have h200 : ∀ (respond : Nat → NetResult) (k : Nat) (e : String) (rest : List String),
      respond k = .http 200 (some true) →
      login_attempts respond k (e :: rest) = (true, k + 1) := by
    intro respond k e rest h
    simp only [login_attempts]
    rw [h]
    simp
  refine ⟨?_, h404, h200, ?_⟩
  · intro respond b1 b2 h0 h1 h2
    unfold login login_endpoints
    rw [h404 respond 0 "/login" ["/xui/login", "/api/login", "/login/"] b1 h0,
      h404 respond 1 "/xui/login" ["/api/login", "/login/"] b2 h1,
      h200 respond 2 "/api/login" ["/login/"] h2]
  · intro respond k e rest h
    simp only [login_attempts]
    rw [h]
    simp

/-- Witness for `C8_login_cycling`: a concrete oracle answering 404, 404,
then 200-with-success. -/
def c8Respond : Nat → NetResult :=
  fun k => if k = 0 then .http 404 none else if k = 1 then .http 404 none
           else .http 200 (some true)

theorem C8_login_cycling_witness :
    c8Respond 0 = .http 404 none ∧ c8Respond 1 = .http 404 none
    ∧ c8Respond 2 = .http 200 (some true)
    ∧ login c8Respond = (true, 3) :=
  ⟨by decide, by decide, by decide,
    C8_login_cycling.1 c8Respond none none (by decide) (by decide) (by decide)⟩

/-! ### Claim C9 -/

/-- C9: during `_login`, a transport-level connection refusal on any
candidate aborts the whole authentication attempt with failure and no
further requests (first and third conjuncts — the result does not depend
on the remaining candidates or on any later oracle answer), whereas a
timeout on one candidate just moves the scan to the next candidate
(second conjunct). -/
theorem C9_login_transport :
    (∀ (respond : Nat → NetResult) (k : Nat) (e : String) (rest : List String),
      respond k = .connError →
      login_attempts respond k (e :: rest) = (false, k + 1))
    ∧ (∀ (respond : Nat → NetResult) (k : Nat) (e : String) (rest : List String),
      respond k = .timeout →
      login_attempts respond k (e :: rest) = login_attempts respond (k + 1) rest)
    ∧ (∀ respond : Nat → NetResult, respond 0 = .connError →
      login respond = (false, 1)) := by
  have habort : ∀ (respond : Nat → NetResult) (k : Nat) (e : String) (rest : List String),
      respond k = .connError →
      login_attempts respond k (e :: rest) = (false, k + 1) := by
    intro respond k e rest h
    simp only [login_attempts]
    rw [h]
  refine ⟨habort, ?_, ?_⟩
  · intro respond k e rest h
    simp only [login_attempts]
    rw [h]
  · intro respond h
    unfold login login_endpoints
    exact habort respond 0 "/login" ["/xui/login", "/api/login", "/login/"] h

/-- Witness for `C9_login_transport`: a connection refusal on the very
first candidate. -/
theorem C9_login_transport_witness :
    (fun _ : Nat => NetResult.connError) 0 = NetResult.connError
    ∧ login (fun _ => NetResult.connError) = (false, 1) :=
  ⟨rfl, C9_login_transport.2.2 (fun _ => NetResult.connError) rfl⟩
